import Mathlib

/-!
Shallow embedding of `custom_components/condair/api.py` (class `CondairApi`).

JSON values are modelled by the inductive `Json` (Python `None` and JSON
`null` are both `Json.null`, since `resp.json()` maps JSON null to Python
`None`).  The mutable fields of a `CondairApi` instance form `ClientState`.
Each `async` method becomes a pure function that takes the current state,
the current wall-clock time (`time.time()` as a rational), and one
`HttpOutcome` per network call the method may issue; it returns an
`OpResult`: the Python return value (or the uncaught exception that
propagates, as `Except PyErr`), the state after the call (reflecting the
attribute mutations performed before any uncaught exception), and the list
of HTTP requests actually dispatched.
-/

namespace Condair

/-- JSON values as returned by `resp.json()`; `null` doubles as Python `None`. -/
inductive Json where
  | null : Json
  | bool : Bool → Json
  | num : ℚ → Json
  | str : String → Json
  | arr : List Json → Json
  | obj : List (String × Json) → Json

/-- Python exceptions that the modelled methods can raise or catch. -/
inductive PyErr where
  | typeError
  | valueError
  | attributeError
  | keyError
  /-- `aiohttp.ClientResponseError`, raised by `resp.raise_for_status()`. -/
  | clientResponseError
  /-- any other `aiohttp.ClientError` (network / transport failure). -/
  | clientError
deriving DecidableEq, Repr

/-- Outcome of one HTTP request as seen by `_get_request` / `_post_request`:
either the value those helpers return (the parsed JSON body, or the empty
dict they substitute for a non-JSON body), or the exception they raise
(`raise_for_status` → `clientResponseError`; transport failure →
`clientError`). -/
inductive HttpOutcome where
  | ok (body : Json)
  | statusError
  | transportError

/-- A dispatched HTTP request (method, endpoint, JSON payload for POST). -/
inductive NetRequest where
  | get (endpoint : String)
  | post (endpoint : String) (payload : Json)

/-- The mutable attributes of a `CondairApi` instance (`__init__`). -/
structure ClientState where
  access_token : Json := .null
  refresh_token : Json := .null
  token_expires_at : ℚ := 0
  username : Option String := none
  password : Option String := none

/-- Result of running one method: Python return value or uncaught exception,
the state after the call, and the requests dispatched (in order). -/
structure OpResult (α : Type) where
  res : Except PyErr α
  state : ClientState
  trace : List NetRequest

/-- Python truthiness of a JSON value (`if x:`). -/
def pyTruthy : Json → Bool
  | .null => false
  | .bool b => b
  | .num q => q != 0
  | .str s => s != ""
  | .arr xs => !xs.isEmpty
  | .obj kvs => !kvs.isEmpty

/-- Python `x == "lit"` for a JSON value `x`: true only when `x` is that string. -/
def jsonEqStr : Json → String → Bool
  | .str a, b => a == b
  | _, _ => false

/-- Numeric value of a list of decimal digits. -/
def digitsVal (cs : List Char) : Nat :=
  cs.foldl (fun n c => n * 10 + (c.toNat - 48)) 0

/-- ASCII whitespace stripped by Python `int(...)` / `float(...)`. -/
def isPySpace (c : Char) : Bool :=
  c == ' ' || c == '\t' || c == '\n' || c == '\r' || c == '\x0b' || c == '\x0c'

/-- Strip leading and trailing whitespace from a character list. -/
def trimChars (cs : List Char) : List Char :=
  ((cs.dropWhile isPySpace).reverse.dropWhile isPySpace).reverse

/-- Python `int(s)` on a string: optional surrounding whitespace, optional
sign, then a non-empty run of decimal digits; `none` models `ValueError`. -/
def pyIntOfString (s : String) : Option Int :=
  let t := trimChars s.toList
  let p : Int × List Char :=
    match t with
    | '-' :: r => (-1, r)
    | '+' :: r => (1, r)
    | _ => (1, t)
  if !p.2.isEmpty && p.2.all Char.isDigit then
    some (p.1 * (digitsVal p.2 : Int))
  else none

/-- Python `float(s)` on a string: optional whitespace and sign, decimal
digits with at most one point, at least one digit; `none` models `ValueError`. -/
def pyFloatOfString (s : String) : Option ℚ :=
  let t := trimChars s.toList
  let p : ℚ × List Char :=
    match t with
    | '-' :: r => (-1, r)
    | '+' :: r => (1, r)
    | _ => (1, t)
  match p.2.splitOn '.' with
  | [ip] =>
      if !ip.isEmpty && ip.all Char.isDigit then some (p.1 * (digitsVal ip : ℚ))
      else none
  | [ip, fp] =>
      if !(ip.isEmpty && fp.isEmpty) && ip.all Char.isDigit && fp.all Char.isDigit then
        some (p.1 * ((digitsVal ip : ℚ) + (digitsVal fp : ℚ) / (10 ^ fp.length)))
      else none
  | _ => none

/-- Truncation toward zero, as Python `int(float)`. -/
def ratTrunc (q : ℚ) : Int :=
  if q < 0 then ⌈q⌉ else ⌊q⌋

/-- Python `int(x)` on a JSON value: parses strings, truncates numbers,
converts booleans, and raises `TypeError` on `None`, lists and dicts. -/
def pyInt : Json → Except PyErr Int
  | .num q => .ok (ratTrunc q)
  | .bool b => .ok (if b then 1 else 0)
  | .str s =>
      match pyIntOfString s with
      | some n => .ok n
      | none => .error .valueError
  | _ => .error .typeError

/-- Python `float(x)` on a JSON value: `TypeError` on `None`, lists, dicts. -/
def pyFloat : Json → Except PyErr ℚ
  | .num q => .ok q
  | .bool b => .ok (if b then 1 else 0)
  | .str s =>
      match pyFloatOfString s with
      | some q => .ok q
      | none => .error .valueError
  | _ => .error .typeError

/-- The `expires_in` handling shared by `authenticate` (lines 125-131) and
`refresh_access_token` (lines 168-174): `resp.get("expires_in", "3600")`,
`int(...)` with only `ValueError` caught (defaulting to 3600), then
`time.time() + expires_in - 30`.  A `TypeError` from `int` propagates. -/
def expiresAt (now : ℚ) (kvs : List (String × Json)) : Except PyErr ℚ :=
  match pyInt ((kvs.lookup "expires_in").getD (.str "3600")) with
  | .ok n => .ok (now + (n : ℚ) - 30)
  | .error .valueError => .ok (now + 3600 - 30)
  | .error e => .error e

/-- The effective `expires_in` the code would use for a response: the parsed
integer, `3600` when the field is absent or an unparsable string, and `none`
when `int(...)` would raise `TypeError` (null / list / dict values). -/
def effExpiresIn (kvs : List (String × Json)) : Option ℚ :=
  match pyInt ((kvs.lookup "expires_in").getD (.str "3600")) with
  | .ok n => some (n : ℚ)
  | .error .valueError => some 3600
  | .error _ => none

/-- The sign-in POST body `{"username": u, "password": p}`. -/
def signinPayload (u p : String) : Json :=
  .obj [("username", .str u), ("password", .str p)]

/-- The request `authenticate` dispatches. -/
def signinReq (u p : String) : NetRequest :=
  .post "userapi/users/signin" (signinPayload u p)

/-- The request `refresh_access_token` dispatches. -/
def refreshReq (tok : Json) : NetRequest :=
  .post "userapi/users/refresh" (.obj [("refresh_token", tok)])

/-- `CondairApi.authenticate` (api.py lines 95-141). -/
def authenticate (st : ClientState) (now : ℚ) (u p : String)
    (resp : HttpOutcome) : OpResult Bool :=
  match resp with
  | .statusError => ⟨.ok false, st, [signinReq u p]⟩
  | .transportError => ⟨.ok false, st, [signinReq u p]⟩
  | .ok (Json.obj kvs) =>
      if (kvs.lookup "error").isSome then ⟨.ok false, st, [signinReq u p]⟩
      else
        match kvs.lookup "access_token", kvs.lookup "refresh_token" with
        | some ta, some tr =>
            let st1 : ClientState :=
              { st with access_token := ta, refresh_token := tr,
                        username := some u, password := some p }
            (match expiresAt now kvs with
             | .ok t => ⟨.ok true, { st1 with token_expires_at := t }, [signinReq u p]⟩
             | .error e => ⟨.error e, st1, [signinReq u p]⟩)
        | _, _ => ⟨.ok false, st, [signinReq u p]⟩
  | .ok _ => ⟨.ok false, st, [signinReq u p]⟩

/-- `CondairApi.refresh_access_token` (api.py lines 142-180).  `resp` is the
outcome of the refresh POST, `fb` the outcome of the fallback sign-in POST
(consumed only when the fallback runs).  On a non-dict JSON body the code
reaches `resp.get(...)` and raises `AttributeError` (not caught by
`except aiohttp.ClientError`). -/
def refresh_access_token (st : ClientState) (now : ℚ)
    (resp fb : HttpOutcome) : OpResult Bool :=
  if !pyTruthy st.refresh_token then ⟨.ok false, st, []⟩
  else
    let req := refreshReq st.refresh_token
    match resp with
    | .statusError => ⟨.ok false, st, [req]⟩
    | .transportError => ⟨.ok false, st, [req]⟩
    | .ok (Json.obj kvs) =>
        if (kvs.lookup "error").isSome then
          match st.username, st.password with
          | some u, some p =>
              if u ≠ "" ∧ p ≠ "" then
                let r := authenticate st now u p fb
                ⟨r.res, r.state, req :: r.trace⟩
              else ⟨.ok false, st, [req]⟩
          | _, _ => ⟨.ok false, st, [req]⟩
        else
          let st1 : ClientState :=
            { st with access_token := (kvs.lookup "access_token").getD .null,
                      refresh_token := (kvs.lookup "refresh_token").getD .null }
          (match expiresAt now kvs with
           | .ok t => ⟨.ok true, { st1 with token_expires_at := t }, [req]⟩
           | .error e => ⟨.error e, st1, [req]⟩)
    | .ok _ => ⟨.error .attributeError, st, [req]⟩

/-- `CondairApi.maybe_refresh_token` (api.py lines 182-191). -/
def maybe_refresh_token (st : ClientState) (now : ℚ)
    (resp fb : HttpOutcome) : OpResult Bool :=
  if !pyTruthy st.access_token then ⟨.ok false, st, []⟩
  else if st.token_expires_at ≤ now then refresh_access_token st now resp fb
  else ⟨.ok true, st, []⟩

/-- The GET request `get_devices` dispatches. -/
def devicesReq : NetRequest :=
  .get "api/condair/sensor-instances?pageSize=999"

/-- `CondairApi.get_devices` (api.py lines 196-203).  `r1`/`fb` feed the
`maybe_refresh_token` prelude, `dataResp` is the outcome of the listing GET
(whose exceptions propagate, there being no `try` here). -/
def get_devices (st : ClientState) (now : ℚ)
    (r1 fb dataResp : HttpOutcome) : OpResult Json :=
  let m := maybe_refresh_token st now r1 fb
  match m.res with
  | .error e => ⟨.error e, m.state, m.trace⟩
  | .ok _ =>
    match dataResp with
    | .statusError => ⟨.error .clientResponseError, m.state, m.trace ++ [devicesReq]⟩
    | .transportError => ⟨.error .clientError, m.state, m.trace ++ [devicesReq]⟩
    | .ok (Json.obj kvs) =>
        match kvs.lookup "data" with
        | some v => ⟨.ok v, m.state, m.trace ++ [devicesReq]⟩
        | none => ⟨.ok (.arr []), m.state, m.trace ++ [devicesReq]⟩
    | .ok _ => ⟨.ok (.arr []), m.state, m.trace ++ [devicesReq]⟩

/-- The parsed snapshot built by `get_latest_datapoints` (the `parsed` dict);
absent fields are `none`. -/
structure Snapshot where
  humidity_avg : Option ℚ := none
  temperature_avg : Option ℚ := none
  target_humidity : Option ℚ := none
  is_on : Option Bool := none
deriving DecidableEq, Repr

/-- The `numeric_val` computation of the datapoint loop (api.py lines
245-251): `None` when `value` is absent or JSON null, the parsed float
otherwise, with `ValueError` swallowed and `TypeError` propagating. -/
def datapointNumeric (kvs : List (String × Json)) : Except PyErr (Option ℚ) :=
  match (kvs.lookup "value").getD .null with
  | .null => .ok none
  | v =>
      match pyFloat v with
      | .ok q => .ok (some q)
      | .error .valueError => .ok none
      | .error e => .error e

/-- One iteration of the datapoint loop body (api.py lines 243-268) on the
accumulated `parsed` snapshot.  A non-dict entry raises `AttributeError`
at `dp.get`. -/
def processDatapoint (s : Snapshot) (dp : Json) : Except PyErr Snapshot :=
  match dp with
  | .obj kvs =>
      let name := (kvs.lookup "dataPointName").getD (.str "")
      (match datapointNumeric kvs with
       | .error e => .error e
       | .ok numeric =>
          .ok <|
            if jsonEqStr name "Humidity Average" && numeric.isSome then
              { s with humidity_avg := numeric }
            else if jsonEqStr name "Temperature Average" && numeric.isSome then
              { s with temperature_avg := numeric }
            else if jsonEqStr name "Humidity Reference" && numeric.isSome then
              { s with target_humidity := numeric }
            else if jsonEqStr name "Area OnOff" then
              { s with is_on := some (numeric == some 1) }
            else s)
  | _ => .error .attributeError

/-- The parsing stage of `get_latest_datapoints` (api.py lines 236-270):
an empty snapshot for a non-list body, otherwise the loop over entries. -/
def parseDatapoints : Json → Except PyErr Snapshot
  | .arr xs => xs.foldlM processDatapoint {}
  | _ => .ok {}

/-- The GET request `get_latest_datapoints` dispatches for a device. -/
def datapointsReq (uid : String) : NetRequest :=
  .get ("api/condair/sensor-instances/" ++ uid ++ "/latest-datapoint-values")

/-- `CondairApi.get_latest_datapoints` (api.py lines 223-270). -/
def get_latest_datapoints (st : ClientState) (now : ℚ) (r1 fb : HttpOutcome)
    (uid : String) (dataResp : HttpOutcome) : OpResult Snapshot :=
  let m := maybe_refresh_token st now r1 fb
  match m.res with
  | .error e => ⟨.error e, m.state, m.trace⟩
  | .ok _ =>
    match dataResp with
    | .statusError => ⟨.error .clientResponseError, m.state, m.trace ++ [datapointsReq uid]⟩
    | .transportError => ⟨.error .clientError, m.state, m.trace ++ [datapointsReq uid]⟩
    | .ok body => ⟨parseDatapoints body, m.state, m.trace ++ [datapointsReq uid]⟩

/-- The GET request `get_actions` dispatches for a device. -/
def actionsReq (uid : String) : NetRequest :=
  .get ("api/condair/sensor-instances/" ++ uid ++ "/actions")

/-- `CondairApi.get_actions` (api.py lines 275-282): the body when it is a
list, `[]` otherwise. -/
def get_actions (st : ClientState) (now : ℚ) (r1 fb : HttpOutcome)
    (uid : String) (dataResp : HttpOutcome) : OpResult (List Json) :=
  let m := maybe_refresh_token st now r1 fb
  match m.res with
  | .error e => ⟨.error e, m.state, m.trace⟩
  | .ok _ =>
    match dataResp with
    | .statusError => ⟨.error .clientResponseError, m.state, m.trace ++ [actionsReq uid]⟩
    | .transportError => ⟨.error .clientError, m.state, m.trace ++ [actionsReq uid]⟩
    | .ok (Json.arr xs) => ⟨.ok xs, m.state, m.trace ++ [actionsReq uid]⟩
    | .ok _ => ⟨.ok [], m.state, m.trace ++ [actionsReq uid]⟩

/-- The body `invoke_action` posts (api.py lines 289-293). -/
def invokePayload (actionId : Json) (uid value : String) : Json :=
  .obj [("actionId", actionId), ("uniqueId", .str uid),
        ("variables", .arr [.obj [("value", .str value), ("varName", .str "$value$")]])]

/-- The POST request `invoke_action` dispatches. -/
def invokeReq (actionId : Json) (uid value : String) : NetRequest :=
  .post "api/condair/invoke-action" (invokePayload actionId uid value)

/-- `CondairApi.invoke_action` (api.py lines 284-302).  The `try` catches
every `aiohttp.ClientError`, including `ClientResponseError`. -/
def invoke_action (st : ClientState) (now : ℚ) (r1 fb : HttpOutcome)
    (actionId : Json) (uid value : String) (postResp : HttpOutcome) : OpResult Bool :=
  let m := maybe_refresh_token st now r1 fb
  match m.res with
  | .error e => ⟨.error e, m.state, m.trace⟩
  | .ok _ =>
    let req := invokeReq actionId uid value
    match postResp with
    | .statusError => ⟨.ok false, m.state, m.trace ++ [req]⟩
    | .transportError => ⟨.ok false, m.state, m.trace ++ [req]⟩
    | .ok (Json.obj kvs) => ⟨.ok (!(kvs.lookup "error").isSome), m.state, m.trace ++ [req]⟩
    | .ok _ => ⟨.ok true, m.state, m.trace ++ [req]⟩

/-- The generator scan `next((a for a in actions if a.get("name") == t), None)`
(api.py lines 306 and 317-319): lazy left-to-right scan, `a.get` raising
`AttributeError` on a non-dict element reached before any match; returns the
key-value list of the first matching dict. -/
def findAction (target : String) : List Json → Except PyErr (Option (List (String × Json)))
  | [] => .ok none
  | .obj kvs :: rest =>
      if jsonEqStr ((kvs.lookup "name").getD .null) target then .ok (some kvs)
      else findAction target rest
  | _ :: _ => .error .attributeError

/-- `CondairApi.set_on_off` (api.py lines 304-313).  `r1 fb aResp` feed the
inner `get_actions` call, `r3 fb2 invResp` the inner `invoke_action` call.
`if not onoff_action` is Python truthiness, so an empty found dict also
fails; `onoff_action["id"]` raises `KeyError` when absent. -/
def set_on_off (st : ClientState) (now : ℚ) (r1 fb aResp : HttpOutcome)
    (uid : String) (turnOn : Bool) (r3 fb2 invResp : HttpOutcome) : OpResult Bool :=
  let g := get_actions st now r1 fb uid aResp
  match g.res with
  | .error e => ⟨.error e, g.state, g.trace⟩
  | .ok actions =>
    match findAction "Area OnOff" actions with
    | .error e => ⟨.error e, g.state, g.trace⟩
    | .ok none => ⟨.ok false, g.state, g.trace⟩
    | .ok (some kvs) =>
        if kvs.isEmpty then ⟨.ok false, g.state, g.trace⟩
        else
          match kvs.lookup "id" with
          | none => ⟨.error .keyError, g.state, g.trace⟩
          | some aid =>
              let r := invoke_action g.state now r3 fb2 aid uid
                (if turnOn then "1" else "0") invResp
              ⟨r.res, r.state, g.trace ++ r.trace⟩

/-- `CondairApi.set_humidity_reference` (api.py lines 315-324); the value is
`str(humidity)` for the `int`-typed humidity. -/
def set_humidity_reference (st : ClientState) (now : ℚ) (r1 fb aResp : HttpOutcome)
    (uid : String) (humidity : Int) (r3 fb2 invResp : HttpOutcome) : OpResult Bool :=
  let g := get_actions st now r1 fb uid aResp
  match g.res with
  | .error e => ⟨.error e, g.state, g.trace⟩
  | .ok actions =>
    match findAction "Humidity Reference" actions with
    | .error e => ⟨.error e, g.state, g.trace⟩
    | .ok none => ⟨.ok false, g.state, g.trace⟩
    | .ok (some kvs) =>
        if kvs.isEmpty then ⟨.ok false, g.state, g.trace⟩
        else
          match kvs.lookup "id" with
          | none => ⟨.error .keyError, g.state, g.trace⟩
          | some aid =>
              let r := invoke_action g.state now r3 fb2 aid uid
                (toString humidity) invResp
              ⟨r.res, r.state, g.trace ++ r.trace⟩

/-- Whether a request is the sign-in POST (a re-authentication attempt). -/
def isSigninReq : NetRequest → Bool
  | .post e _ => e == "userapi/users/signin"
  | _ => false

/-- Whether a request is the invoke-action POST. -/
def isInvokeReq : NetRequest → Bool
  | .post e _ => e == "api/condair/invoke-action"
  | _ => false

end Condair

namespace Condair

lemma authenticate_trace (st : ClientState) (now : ℚ) (u p : String) (resp : HttpOutcome) :
    (authenticate st now u p resp).trace = [signinReq u p] := by
  unfold authenticate
  rcases resp with body | _ | _
  · cases body <;> try rfl
    dsimp only
    split
    · rfl
    · split
      · split <;> rfl
      · rfl
  · rfl
  · rfl

lemma authenticate_error_out (st : ClientState) (now : ℚ) (u p : String)
    (kvs : List (String × Json)) (h : (kvs.lookup "error").isSome = true) :
    authenticate st now u p (.ok (.obj kvs)) = ⟨.ok false, st, [signinReq u p]⟩ := by
  simp [authenticate, h]

lemma refresh_no_token (st : ClientState) (now : ℚ) (resp fb : HttpOutcome)
    (h : pyTruthy st.refresh_token = false) :
    refresh_access_token st now resp fb = ⟨.ok false, st, []⟩ := by
  simp [refresh_access_token, h]

lemma refresh_trace_cons (st : ClientState) (now : ℚ) (resp fb : HttpOutcome)
    (h : pyTruthy st.refresh_token = true) :
    ∃ l, (refresh_access_token st now resp fb).trace = refreshReq st.refresh_token :: l := by
  unfold refresh_access_token
  simp only [h, Bool.not_true, Bool.false_eq_true, if_false]
  rcases resp with body | _ | _
  · cases body <;> try exact ⟨[], rfl⟩
    dsimp only
    split
    · split
      · split
        · exact ⟨(authenticate st now _ _ fb).trace, rfl⟩
        · exact ⟨[], rfl⟩
      · exact ⟨[], rfl⟩
    · split <;> exact ⟨[], rfl⟩
  · exact ⟨[], rfl⟩
  · exact ⟨[], rfl⟩

end Condair

namespace Condair

lemma isInvokeReq_signin (u p : String) : isInvokeReq (signinReq u p) = false := rfl

lemma isInvokeReq_refresh (tok : Json) : isInvokeReq (refreshReq tok) = false := rfl

lemma refresh_no_invoke (st : ClientState) (now : ℚ) (resp fb : HttpOutcome) :
    (refresh_access_token st now resp fb).trace.countP isInvokeReq = 0 := by
  by_cases h : pyTruthy st.refresh_token
  · unfold refresh_access_token
    simp only [h, Bool.not_true, Bool.false_eq_true, if_false]
    rcases resp with body | _ | _
    · cases body <;>
        try simp [List.countP_cons, isInvokeReq, refreshReq]
      split
      · split
        · split
          · simp [List.countP_cons, isInvokeReq, refreshReq, signinReq, authenticate_trace]
          · simp [List.countP_cons, isInvokeReq, refreshReq]
        · simp [List.countP_cons, isInvokeReq, refreshReq]
      · split <;> simp [List.countP_cons, isInvokeReq, refreshReq]
    · simp [List.countP_cons, isInvokeReq, refreshReq]
    · simp [List.countP_cons, isInvokeReq, refreshReq]
  · simp only [Bool.not_eq_true] at h
    rw [refresh_no_token st now resp fb h]
    rfl

lemma maybe_refresh_no_invoke (st : ClientState) (now : ℚ) (resp fb : HttpOutcome) :
    (maybe_refresh_token st now resp fb).trace.countP isInvokeReq = 0 := by
  unfold maybe_refresh_token
  split
  · rfl
  · split
    · exact refresh_no_invoke st now resp fb
    · rfl

lemma get_actions_no_invoke (st : ClientState) (now : ℚ) (r1 fb : HttpOutcome)
    (uid : String) (aResp : HttpOutcome) :
    (get_actions st now r1 fb uid aResp).trace.countP isInvokeReq = 0 := by
  unfold get_actions
  dsimp only
  have hm := maybe_refresh_no_invoke st now r1 fb
  split
  · exact hm
  · rcases aResp with body | _ | _
    · cases body <;> simp [List.countP_append, List.countP_cons, isInvokeReq, actionsReq, hm]
    · simp [List.countP_append, List.countP_cons, isInvokeReq, actionsReq, hm]
    · simp [List.countP_append, List.countP_cons, isInvokeReq, actionsReq, hm]

lemma findAction_none (t : String) (xs : List Json)
    (hobj : ∀ a ∈ xs, ∃ k, a = Json.obj k)
    (hno : ∀ k, Json.obj k ∈ xs → jsonEqStr ((k.lookup "name").getD .null) t = false) :
    findAction t xs = .ok none := by
  induction xs with
  | nil => rfl
  | cons a rest ih =>
      obtain ⟨k, rfl⟩ := hobj a (List.mem_cons_self a rest)
      have hk := hno k (List.mem_cons_self _ _)
      unfold findAction
      rw [hk]
      simp only [Bool.false_eq_true, if_false]
      exact ih (fun a ha => hobj a (List.mem_cons_of_mem _ ha))
        (fun k' hk' => hno k' (List.mem_cons_of_mem _ hk'))

lemma findAction_some_ne_nil (t : String) (xs : List Json) (kvs : List (String × Json))
    (h : findAction t xs = .ok (some kvs)) : kvs.isEmpty = false := by
  induction xs with
  | nil => exact absurd h (by simp [findAction])
  | cons a rest ih =>
      cases a with
      | obj k =>
          unfold findAction at h
          by_cases hc : jsonEqStr ((k.lookup "name").getD .null) t = true
          · rw [hc] at h
            simp only [if_true, Except.ok.injEq, Option.some.injEq] at h
            subst h
            cases k with
            | nil => simp [List.lookup, jsonEqStr] at hc
            | cons _ _ => rfl
          · simp only [Bool.not_eq_true] at hc
            rw [hc] at h
            simp only [Bool.false_eq_true, if_false] at h
            exact ih h
      | null => exact absurd h (by simp [findAction])
      | bool b => exact absurd h (by simp [findAction])
      | num q => exact absurd h (by simp [findAction])
      | str s => exact absurd h (by simp [findAction])
      | arr l => exact absurd h (by simp [findAction])

end Condair

namespace Condair

lemma expiresAt_eq (now : ℚ) (kvs : List (String × Json)) (q : ℚ)
    (hq : effExpiresIn kvs = some q) : expiresAt now kvs = .ok (now + q - 30) := by
  unfold effExpiresIn at hq
  unfold expiresAt
  split at hq
  · injection hq with h
    rw [h]
  · injection hq with h
    rw [h]
  · exact Option.noConfusion hq

/-- The sign-in response used to refute C1: it contains both tokens and no
error field, yet `expires_in` is JSON null. -/
def c1BadResp : Json :=
  .obj [("access_token", .str "a"), ("refresh_token", .str "b"), ("expires_in", Json.null)]

/-- C1 (counterexample): a sign-in response holding both tokens and no error
field on which `authenticate` does not return success — `int(None)` raises an
uncaught `TypeError` (only `ValueError` is caught), so the call raises
instead of defaulting `expires_in` to 3600. -/
theorem C1_counterexample :
    (c1BadResp matches Json.obj _) = true ∧
    (authenticate {} 0 "u" "p" (.ok c1BadResp)).res = .error .typeError ∧
    (authenticate {} 0 "u" "p" (.ok c1BadResp)).res ≠ .ok true := by
  refine ⟨rfl, rfl, fun h => ?_⟩
  have h' : (Except.error PyErr.typeError : Except PyErr Bool) = Except.ok true := h
  exact Except.noConfusion h' 

/-- C1 (amended): for every sign-in response that is a mapping containing
both `access_token` and `refresh_token` and no `error` field, and whose
`expires_in` field (when present) is a string, number or boolean — so that
`int(...)` does not raise `TypeError` — `authenticate` returns success,
stores both tokens and the supplied username/password, and sets
`expires_at = now + expires_in - 30`, where the effective `expires_in`
defaults to 3600 when the field is absent or not parsable as an integer. -/
theorem C1_amended (st : ClientState) (now : ℚ) (u p : String)
    (kvs : List (String × Json)) (ta tr : Json) (q : ℚ)
    (he : kvs.lookup "error" = none)
    (ha : kvs.lookup "access_token" = some ta)
    (hr : kvs.lookup "refresh_token" = some tr)
    (hq : effExpiresIn kvs = some q) :
    authenticate st now u p (.ok (.obj kvs)) =
      ⟨.ok true,
       { st with access_token := ta, refresh_token := tr,
                 username := some u, password := some p,
                 token_expires_at := now + q - 30 },
       [signinReq u p]⟩ := by
  simp only [authenticate, he, Option.isSome_none, Bool.false_eq_true, if_false, ha, hr]
  rw [expiresAt_eq now kvs q hq]

/-- Witness for C1_amended at a concrete response with `expires_in` absent. -/
theorem C1_amended_witness :
    authenticate {} 0 "u" "p"
        (.ok (.obj [("access_token", .str "a"), ("refresh_token", .str "b")])) =
      ⟨.ok true,
       { access_token := .str "a", refresh_token := .str "b",
         token_expires_at := 0 + 3600 - 30,
         username := some "u", password := some "p" },
       [signinReq "u" "p"]⟩ :=
  C1_amended {} 0 "u" "p" _ (.str "a") (.str "b") 3600 rfl rfl rfl (by decide)

/-- C2: for every response that is a mapping containing an `error` field,
`authenticate` returns failure without raising; and `refresh_access_token`
returns failure without raising when every response it receives (the refresh
response, and the fallback sign-in response when the stored-credentials
re-authentication fallback runs) is such a mapping. -/
theorem C2_error_response_failure (st : ClientState) (now : ℚ) (u p : String)
    (kvs1 kvs2 : List (String × Json))
    (h1 : (kvs1.lookup "error").isSome = true)
    (h2 : (kvs2.lookup "error").isSome = true) :
    (authenticate st now u p (.ok (.obj kvs1))).res = .ok false ∧
    (refresh_access_token st now (.ok (.obj kvs1)) (.ok (.obj kvs2))).res = .ok false := by
  constructor
  · rw [authenticate_error_out st now u p kvs1 h1]
  · by_cases hrt : pyTruthy st.refresh_token
    · unfold refresh_access_token
      simp only [hrt, Bool.not_true, Bool.false_eq_true, if_false, h1, if_true]
      rcases hu : st.username with _ | u'
      · rfl
      · rcases hp : st.password with _ | p'
        · rfl
        · dsimp only
          split
          · rw [authenticate_error_out st now u' p' kvs2 h2]
          · rfl
    · simp only [Bool.not_eq_true] at hrt
      rw [refresh_no_token st now _ _ hrt]

/-- Witness for C2 at concrete error responses. -/
theorem C2_witness :
    (authenticate {} 0 "u" "p" (.ok (.obj [("error", .str "bad")]))).res = .ok false ∧
    (refresh_access_token { refresh_token := .str "r", username := some "u", password := some "p" }
        0 (.ok (.obj [("error", .str "bad")])) (.ok (.obj [("error", .str "worse")]))).res = .ok false :=
  C2_error_response_failure
    { refresh_token := .str "r", username := some "u", password := some "p" }
    0 "u" "p" [("error", .str "bad")] [("error", .str "worse")] rfl rfl

end Condair

namespace Condair

/-- The client state used to refute C3: an access token is held, the token
has expired, and no refresh token is held. -/
def c3State : ClientState :=
  { access_token := .str "tok", refresh_token := .null, token_expires_at := 0 }

/-- C3 (counterexample): a client state holding an access token, already
expired at time 5, in which `maybe_refresh_token` issues no network call —
it delegates to `refresh_access_token`, which returns failure immediately
because no refresh token is held, contradicting the claim that every state
other than the valid-token one leads to a network call (with the
never-authenticated state as the only no-network failure). -/
theorem C3_counterexample :
    pyTruthy c3State.access_token = true ∧
    c3State.token_expires_at ≤ 5 ∧
    (maybe_refresh_token c3State 5 (.ok (.obj [])) (.ok (.obj []))).trace = [] ∧
    (maybe_refresh_token c3State 5 (.ok (.obj [])) (.ok (.obj []))).res = .ok false := by
  refine ⟨rfl, ?_, rfl, rfl⟩
  norm_num [c3State]

/-- C3 (amended): when an access token is held (truthy) and `now` is before
`expires_at`, `maybe_refresh_token` returns success with no network call;
when no access token is held it returns failure with no network call (whether
or not one was ever obtained); when the token has expired it delegates to
`refresh_access_token`, which issues a network call if and only if a refresh
token is held. -/
theorem C3_amended (st : ClientState) (now : ℚ) (r1 fb : HttpOutcome) :
    (pyTruthy st.access_token = true → now < st.token_expires_at →
       maybe_refresh_token st now r1 fb = ⟨.ok true, st, []⟩) ∧
    (pyTruthy st.access_token = false →
       maybe_refresh_token st now r1 fb = ⟨.ok false, st, []⟩) ∧
    (pyTruthy st.access_token = true → st.token_expires_at ≤ now →
       maybe_refresh_token st now r1 fb = refresh_access_token st now r1 fb ∧
       ((refresh_access_token st now r1 fb).trace ≠ [] ↔ pyTruthy st.refresh_token = true)) := by
  refine ⟨?_, ?_, ?_⟩
  · intro ha hlt
    unfold maybe_refresh_token
    rw [ha]
    simp only [Bool.not_true, Bool.false_eq_true, if_false, if_neg (not_le.mpr hlt)]
  · intro ha
    unfold maybe_refresh_token
    rw [ha]
    simp
  · intro ha hle
    constructor
    · unfold maybe_refresh_token
      rw [ha]
      simp only [Bool.not_true, Bool.false_eq_true, if_false, if_pos hle]
    · constructor
      · intro htr
        by_contra hrt
        simp only [Bool.not_eq_true] at hrt
        rw [refresh_no_token st now r1 fb hrt] at htr
        exact htr rfl
      · intro hrt
        obtain ⟨l, hl⟩ := refresh_trace_cons st now r1 fb hrt
        rw [hl]
        exact List.cons_ne_nil _ _

/-- Witness for C3_amended: a held, unexpired token gives success without
network activity, and a held, expired token with a held refresh token gives
a network call. -/
theorem C3_amended_witness :
    maybe_refresh_token { access_token := .str "t", token_expires_at := 100 } 0
        (.ok (.obj [])) (.ok (.obj [])) =
      ⟨.ok true, { access_token := .str "t", token_expires_at := 100 }, []⟩ ∧
    ((refresh_access_token { access_token := .str "t", refresh_token := .str "r" } 5
        (.ok (.obj [])) (.ok (.obj []))).trace ≠ []) :=
  ⟨(C3_amended { access_token := .str "t", token_expires_at := 100 } 0
      (.ok (.obj [])) (.ok (.obj []))).1 rfl (by norm_num),
   ((C3_amended { access_token := .str "t", refresh_token := .str "r" } 5
      (.ok (.obj [])) (.ok (.obj []))).2.2 rfl (by norm_num)).2.mpr rfl⟩

/-- The client state used to refute C4: refresh token and credentials held. -/
def c4State : ClientState :=
  { refresh_token := .str "r", username := some "u", password := some "p" }

/-- C4 (counterexample): with stored username/password and a held refresh
token, a refresh that fails with a transport error returns failure after
dispatching only the refresh POST — zero re-authentication attempts, not
exactly one as the claim requires for every failure mode. -/
theorem C4_counterexample :
    (refresh_access_token c4State 0 .transportError (.ok (.obj []))).res = .ok false ∧
    (refresh_access_token c4State 0 .transportError (.ok (.obj []))).trace =
      [refreshReq (.str "r")] ∧
    ((refresh_access_token c4State 0 .transportError (.ok (.obj []))).trace.countP
      isSigninReq) = 0 := by
  refine ⟨rfl, rfl, ?_⟩
  decide

/-- C4 (amended): with stored non-empty username/password and a held refresh
token, a refresh whose response is a mapping with an `error` field triggers
exactly one re-authentication attempt with those same stored credentials
(the overall outcome being that of the `authenticate` call); a refresh that
fails with an HTTP status error or a transport error triggers none and
returns failure. -/
theorem C4_amended (st : ClientState) (now : ℚ) (u p : String) (fb : HttpOutcome)
    (hu : st.username = some u) (hp : st.password = some p)
    (hu' : u ≠ "") (hp' : p ≠ "")
    (ht : pyTruthy st.refresh_token = true) :
    (∀ kvs : List (String × Json), (kvs.lookup "error").isSome = true →
       refresh_access_token st now (.ok (.obj kvs)) fb =
         ⟨(authenticate st now u p fb).res, (authenticate st now u p fb).state,
          refreshReq st.refresh_token :: (authenticate st now u p fb).trace⟩ ∧
       (refresh_access_token st now (.ok (.obj kvs)) fb).trace.countP isSigninReq = 1) ∧
    ((refresh_access_token st now .statusError fb).res = .ok false ∧
     (refresh_access_token st now .statusError fb).trace.countP isSigninReq = 0) ∧
    ((refresh_access_token st now .transportError fb).res = .ok false ∧
     (refresh_access_token st now .transportError fb).trace.countP isSigninReq = 0) := by
  have hmain : ∀ kvs : List (String × Json), (kvs.lookup "error").isSome = true →
      refresh_access_token st now (.ok (.obj kvs)) fb =
        ⟨(authenticate st now u p fb).res, (authenticate st now u p fb).state,
         refreshReq st.refresh_token :: (authenticate st now u p fb).trace⟩ := by
    intro kvs hkvs
    unfold refresh_access_token
    simp only [ht, Bool.not_true, Bool.false_eq_true, if_false, hkvs, if_true, hu, hp]
    rw [if_pos ⟨hu', hp'⟩]
  refine ⟨fun kvs hkvs => ⟨hmain kvs hkvs, ?_⟩, ⟨?_, ?_⟩, ⟨?_, ?_⟩⟩
  · rw [hmain kvs hkvs]
    simp [List.countP_cons, isSigninReq, refreshReq, authenticate_trace, signinReq]
  · unfold refresh_access_token
    simp [ht]
  · unfold refresh_access_token
    simp [ht, List.countP_cons, isSigninReq, refreshReq]
  · unfold refresh_access_token
    simp [ht]
  · unfold refresh_access_token
    simp [ht, List.countP_cons, isSigninReq, refreshReq]

/-- Witness for C4_amended at a concrete error-field refresh response. -/
theorem C4_amended_witness :
    refresh_access_token c4State 0 (.ok (.obj [("error", .str "expired")])) .transportError =
      ⟨(authenticate c4State 0 "u" "p" .transportError).res,
       (authenticate c4State 0 "u" "p" .transportError).state,
       refreshReq c4State.refresh_token :: (authenticate c4State 0 "u" "p" .transportError).trace⟩ ∧
    (refresh_access_token c4State 0 (.ok (.obj [("error", .str "expired")])) .transportError).trace.countP
      isSigninReq = 1 :=
  (C4_amended c4State 0 "u" "p" .transportError rfl rfl (by decide) (by decide) rfl).1
    [("error", .str "expired")] rfl

end Condair

namespace Condair

/-- Whether a datapoint name is one of the four recognized by the parser. -/
def recognizedName (nm : Json) : Bool :=
  jsonEqStr nm "Humidity Average" || jsonEqStr nm "Temperature Average" ||
    jsonEqStr nm "Humidity Reference" || jsonEqStr nm "Area OnOff"

/-- C5: for a datapoint entry named `"Area OnOff"`, whenever the guarded
numeric parse of its `value` completes (absent value, null, a parse failure
swallowed as `ValueError`, or any parsed number), the loop body sets `is_on`
to true exactly when the parsed value equals `1.0`, and to false for every
other parse outcome, leaving the numeric fields untouched. -/
theorem C5_area_onoff_is_on (s : Snapshot) (kvs : List (String × Json))
    (numeric : Option ℚ)
    (hname : kvs.lookup "dataPointName" = some (.str "Area OnOff"))
    (hnum : datapointNumeric kvs = .ok numeric) :
    ∃ s', processDatapoint s (.obj kvs) = .ok s' ∧
      (s'.is_on = some true ↔ numeric = some 1) ∧
      (numeric ≠ some 1 → s'.is_on = some false) ∧
      s'.humidity_avg = s.humidity_avg ∧
      s'.temperature_avg = s.temperature_avg ∧
      s'.target_humidity = s.target_humidity := by
  refine ⟨{ s with is_on := some (numeric == some 1) }, ?_, ?_, ?_, rfl, rfl, rfl⟩
  · simp [processDatapoint, hname, hnum, jsonEqStr]
  · simp
  · intro h
    simp [beq_false_of_ne h]

/-- Witness for C5 with an unparsable value: `is_on` is set to false. -/
theorem C5_witness :
    ∃ s', processDatapoint {}
        (.obj [("dataPointName", .str "Area OnOff"), ("value", .str "x")]) = .ok s' ∧
      (s'.is_on = some true ↔ (none : Option ℚ) = some 1) ∧
      ((none : Option ℚ) ≠ some 1 → s'.is_on = some false) ∧
      s'.humidity_avg = Snapshot.humidity_avg {} ∧
      s'.temperature_avg = Snapshot.temperature_avg {} ∧
      s'.target_humidity = Snapshot.target_humidity {} :=
  C5_area_onoff_is_on {} [("dataPointName", .str "Area OnOff"), ("value", .str "x")]
    none rfl rfl

/-- The two raw datapoints of the C6 scenario. -/
def dpHumidity : Json :=
  .obj [("dataPointName", .str "Humidity Average"), ("value", .str "45.2")]

/-- The second raw datapoint of the C6 scenario. -/
def dpOnOff : Json :=
  .obj [("dataPointName", .str "Area OnOff"), ("value", .str "1")]

/-- A client state holding a valid (unexpired) access token at time 0. -/
def c6State : ClientState := { access_token := .str "t", token_expires_at := 100 }

end Condair

namespace Condair

lemma pyFloat_str_one : pyFloat (.str "1") = .ok 1 := by
  have h0 : pyFloatOfString "1" = some (1 * ((1 : ℕ) : ℚ)) := rfl
  have h1 : pyFloatOfString "1" = some 1 := by rw [h0]; norm_num
  simp [pyFloat, h1]

lemma pyFloat_str_452 : pyFloat (.str "45.2") = .ok (226 / 5) := by
  have h0 : pyFloatOfString "45.2" = some (1 * (((45 : ℕ) : ℚ) + ((2 : ℕ) : ℚ) / 10 ^ 1)) := rfl
  have h1 : pyFloatOfString "45.2" = some (226 / 5) := by rw [h0]; norm_num
  simp [pyFloat, h1]

lemma c6_step1 : processDatapoint {} dpHumidity = .ok { humidity_avg := some (226 / 5) } := by
  simp [processDatapoint, dpHumidity, datapointNumeric, pyFloat_str_452, jsonEqStr,
    List.lookup]

lemma c6_step2 :
    processDatapoint { humidity_avg := some (226 / 5) } dpOnOff =
      .ok { humidity_avg := some (226 / 5), is_on := some true } := by
  simp [processDatapoint, dpOnOff, datapointNumeric, pyFloat_str_one, jsonEqStr,
    List.lookup]

lemma c6_parse :
    parseDatapoints (.arr [dpHumidity, dpOnOff]) =
      .ok { humidity_avg := some (226 / 5), is_on := some true } := by
  simp only [parseDatapoints, List.foldlM, c6_step1]
  exact c6_step2

lemma c6_prelude :
    maybe_refresh_token c6State 0 (.ok .null) (.ok .null) = ⟨.ok true, c6State, []⟩ := by
  unfold maybe_refresh_token
  rw [show pyTruthy c6State.access_token = true from rfl]
  simp only [Bool.not_true, Bool.false_eq_true, if_false]
  rw [if_neg]
  norm_num [c6State]

/-- C6: the datapoint parser maps entries to snapshot fields only by exact
name match; numeric fields are skipped when the value is absent or not
parsable; unrecognized names leave the snapshot unchanged; a non-sequence
top-level response yields an empty snapshot; and the concrete scenario
`[{dataPointName: "Humidity Average", value: "45.2"}, {dataPointName: "Area
OnOff", value: "1"}]` yields exactly `humidity_avg = 45.2` and `is_on = true`
with no temperature and no target humidity. -/
theorem C6_name_mapping :
    (get_latest_datapoints c6State 0 (.ok .null) (.ok .null) "dev"
        (.ok (.arr [dpHumidity, dpOnOff])) =
      ⟨.ok { humidity_avg := some (226 / 5), temperature_avg := none,
             target_humidity := none, is_on := some true },
       c6State, [datapointsReq "dev"]⟩) ∧
    (∀ (s : Snapshot) (kvs : List (String × Json)) (numeric : Option ℚ),
       datapointNumeric kvs = .ok numeric →
       recognizedName ((kvs.lookup "dataPointName").getD (.str "")) = false →
       processDatapoint s (.obj kvs) = .ok s) ∧
    (∀ (s : Snapshot) (kvs : List (String × Json)),
       datapointNumeric kvs = .ok none →
       jsonEqStr ((kvs.lookup "dataPointName").getD (.str "")) "Area OnOff" = false →
       processDatapoint s (.obj kvs) = .ok s) ∧
    (∀ (s : Snapshot) (kvs : List (String × Json)) (q : ℚ),
       datapointNumeric kvs = .ok (some q) →
       (((kvs.lookup "dataPointName").getD (.str "") = .str "Humidity Average") →
          processDatapoint s (.obj kvs) = .ok { s with humidity_avg := some q }) ∧
       (((kvs.lookup "dataPointName").getD (.str "") = .str "Temperature Average") →
          processDatapoint s (.obj kvs) = .ok { s with temperature_avg := some q }) ∧
       (((kvs.lookup "dataPointName").getD (.str "") = .str "Humidity Reference") →
          processDatapoint s (.obj kvs) = .ok { s with target_humidity := some q })) ∧
    (∀ b : Json, (∀ xs, b ≠ .arr xs) → parseDatapoints b = .ok {}) := by
  refine ⟨?_, ?_, ?_, ?_, ?_⟩
  · simp only [get_latest_datapoints, c6_prelude]
    rw [c6_parse]
    rfl
  · intro s kvs numeric hnum hrec
    simp only [recognizedName, Bool.or_eq_false_iff] at hrec
    obtain ⟨⟨⟨h1, h2⟩, h3⟩, h4⟩ := hrec
    simp [processDatapoint, hnum, h1, h2, h3, h4]
  · intro s kvs hnum hno
    simp [processDatapoint, hnum, hno]
  · intro s kvs q hnum
    refine ⟨fun hn => ?_, fun hn => ?_, fun hn => ?_⟩ <;>
      simp [processDatapoint, hnum, hn, jsonEqStr]
  · intro b hb
    cases b with
    | arr xs => exact absurd rfl (hb xs)
    | null => rfl
    | bool x => rfl
    | num x => rfl
    | str x => rfl
    | obj x => rfl

/-- Witness for C6: an unrecognized datapoint name leaves the snapshot
unchanged. -/
theorem C6_witness :
    processDatapoint {} (.obj [("dataPointName", .str "Foo"), ("value", .str "x")]) =
      .ok {} :=
  C6_name_mapping.2.1 {} [("dataPointName", .str "Foo"), ("value", .str "x")]
    none rfl rfl

end Condair

namespace Condair

lemma get_devices_trace (st : ClientState) (now : ℚ) (r1 fb dResp : HttpOutcome) (b : Bool)
    (h : (maybe_refresh_token st now r1 fb).res = .ok b) :
    (get_devices st now r1 fb dResp).trace =
      (maybe_refresh_token st now r1 fb).trace ++ [devicesReq] := by
  simp only [get_devices]
  rw [h]
  rcases dResp with body | _ | _
  · cases body <;> try rfl
    dsimp only
    cases h2 : List.lookup "data" _ <;> rfl
  · rfl
  · rfl

lemma get_latest_datapoints_trace (st : ClientState) (now : ℚ) (r1 fb : HttpOutcome)
    (uid : String) (dResp : HttpOutcome) (b : Bool)
    (h : (maybe_refresh_token st now r1 fb).res = .ok b) :
    (get_latest_datapoints st now r1 fb uid dResp).trace =
      (maybe_refresh_token st now r1 fb).trace ++ [datapointsReq uid] := by
  simp only [get_latest_datapoints]
  rw [h]
  rcases dResp with body | _ | _ <;> rfl

lemma get_actions_trace (st : ClientState) (now : ℚ) (r1 fb : HttpOutcome)
    (uid : String) (dResp : HttpOutcome) (b : Bool)
    (h : (maybe_refresh_token st now r1 fb).res = .ok b) :
    (get_actions st now r1 fb uid dResp).trace =
      (maybe_refresh_token st now r1 fb).trace ++ [actionsReq uid] := by
  simp only [get_actions]
  rw [h]
  rcases dResp with body | _ | _
  · cases body <;> rfl
  · rfl
  · rfl

lemma invoke_action_trace (st : ClientState) (now : ℚ) (r1 fb : HttpOutcome)
    (actionId : Json) (uid value : String) (postResp : HttpOutcome) (b : Bool)
    (h : (maybe_refresh_token st now r1 fb).res = .ok b) :
    (invoke_action st now r1 fb actionId uid value postResp).trace =
      (maybe_refresh_token st now r1 fb).trace ++ [invokeReq actionId uid value] := by
  simp only [invoke_action]
  rw [h]
  rcases postResp with body | _ | _
  · cases body <;> rfl
  · rfl
  · rfl

end Condair

namespace Condair

/-- C7: when the device's action list (a list of action objects) contains no
action named exactly `"Area OnOff"` (resp. `"Humidity Reference"`),
`set_on_off` (resp. `set_humidity_reference`) returns failure without
raising and without dispatching any invoke-action request; when the named
action is present with an `id`, `set_on_off` delegates to `invoke_action`
with the value `"1"` when turning on and `"0"` when turning off, and
`set_humidity_reference` delegates with the humidity rendered as a decimal
string. -/
theorem C7_setters (st : ClientState) (now : ℚ) (r1 fb aResp : HttpOutcome)
    (uid : String) (turnOn : Bool) (hum : Int) (r3 fb2 invResp : HttpOutcome)
    (xs : List Json)
    (hres : (get_actions st now r1 fb uid aResp).res = .ok xs) :
    ((∀ a ∈ xs, ∃ k, a = Json.obj k) →
     (∀ k, Json.obj k ∈ xs → jsonEqStr ((k.lookup "name").getD .null) "Area OnOff" = false) →
       (set_on_off st now r1 fb aResp uid turnOn r3 fb2 invResp).res = .ok false ∧
       (set_on_off st now r1 fb aResp uid turnOn r3 fb2 invResp).trace.countP isInvokeReq = 0) ∧
    (∀ (kvs : List (String × Json)) (aid : Json),
       findAction "Area OnOff" xs = .ok (some kvs) → kvs.lookup "id" = some aid →
       set_on_off st now r1 fb aResp uid turnOn r3 fb2 invResp =
         ⟨(invoke_action (get_actions st now r1 fb uid aResp).state now r3 fb2 aid uid
             (if turnOn then "1" else "0") invResp).res,
          (invoke_action (get_actions st now r1 fb uid aResp).state now r3 fb2 aid uid
             (if turnOn then "1" else "0") invResp).state,
          (get_actions st now r1 fb uid aResp).trace ++
            (invoke_action (get_actions st now r1 fb uid aResp).state now r3 fb2 aid uid
              (if turnOn then "1" else "0") invResp).trace⟩) ∧
    ((∀ a ∈ xs, ∃ k, a = Json.obj k) →
     (∀ k, Json.obj k ∈ xs →
        jsonEqStr ((k.lookup "name").getD .null) "Humidity Reference" = false) →
       (set_humidity_reference st now r1 fb aResp uid hum r3 fb2 invResp).res = .ok false ∧
       (set_humidity_reference st now r1 fb aResp uid hum r3 fb2 invResp).trace.countP
         isInvokeReq = 0) ∧
    (∀ (kvs : List (String × Json)) (aid : Json),
       findAction "Humidity Reference" xs = .ok (some kvs) → kvs.lookup "id" = some aid →
       set_humidity_reference st now r1 fb aResp uid hum r3 fb2 invResp =
         ⟨(invoke_action (get_actions st now r1 fb uid aResp).state now r3 fb2 aid uid
             (toString hum) invResp).res,
          (invoke_action (get_actions st now r1 fb uid aResp).state now r3 fb2 aid uid
             (toString hum) invResp).state,
          (get_actions st now r1 fb uid aResp).trace ++
            (invoke_action (get_actions st now r1 fb uid aResp).state now r3 fb2 aid uid
              (toString hum) invResp).trace⟩) := by
  refine ⟨?_, ?_, ?_, ?_⟩
  · intro hobj hno
    have hf := findAction_none "Area OnOff" xs hobj hno
    constructor
    · simp only [set_on_off]
      rw [hres]
      dsimp only
      rw [hf]
    · simp only [set_on_off]
      rw [hres]
      dsimp only
      rw [hf]
      exact get_actions_no_invoke st now r1 fb uid aResp
  · intro kvs aid hf hid
    have hne := findAction_some_ne_nil "Area OnOff" xs kvs hf
    simp only [set_on_off]
    rw [hres]
    dsimp only
    rw [hf]
    simp only [hne, Bool.false_eq_true, if_false, hid]
  · intro hobj hno
    have hf := findAction_none "Humidity Reference" xs hobj hno
    constructor
    · simp only [set_humidity_reference]
      rw [hres]
      dsimp only
      rw [hf]
    · simp only [set_humidity_reference]
      rw [hres]
      dsimp only
      rw [hf]
      exact get_actions_no_invoke st now r1 fb uid aResp
  · intro kvs aid hf hid
    have hne := findAction_some_ne_nil "Humidity Reference" xs kvs hf
    simp only [set_humidity_reference]
    rw [hres]
    dsimp only
    rw [hf]
    simp only [hne, Bool.false_eq_true, if_false, hid]

/-- Witness for C7: a device whose only action is named `"Other"` makes
`set_on_off` fail cleanly with no invoke-action request. -/
theorem C7_witness :
    (set_on_off c6State 0 (.ok .null) (.ok .null)
        (.ok (.arr [.obj [("name", .str "Other"), ("id", .str "7")]]))
        "dev" true (.ok .null) (.ok .null) (.ok (.obj []))).res = .ok false ∧
    (set_on_off c6State 0 (.ok .null) (.ok .null)
        (.ok (.arr [.obj [("name", .str "Other"), ("id", .str "7")]]))
        "dev" true (.ok .null) (.ok .null) (.ok (.obj []))).trace.countP isInvokeReq = 0 :=
  (C7_setters c6State 0 (.ok .null) (.ok .null)
      (.ok (.arr [.obj [("name", .str "Other"), ("id", .str "7")]]))
      "dev" true 40 (.ok .null) (.ok .null) (.ok (.obj []))
      [.obj [("name", .str "Other"), ("id", .str "7")]] rfl).1
    (by
      intro a ha
      refine ⟨[("name", .str "Other"), ("id", .str "7")], ?_⟩
      simpa using ha)
    (by
      intro k hk
      have : k = [("name", .str "Other"), ("id", .str "7")] := by
        simpa using hk
      subst this
      decide)

end Condair

namespace Condair

/-- C8: provided the token prelude does not raise, `get_devices` returns the
contents of the response's `data` field when the JSON body is a mapping
containing `data`, and an empty sequence when the mapping lacks it; in
particular the scenario response with one device yields that one-element
list and `{}` yields the empty sequence. -/
theorem C8_get_devices (st : ClientState) (now : ℚ) (r1 fb : HttpOutcome)
    (kvs : List (String × Json)) (b : Bool)
    (hok : (maybe_refresh_token st now r1 fb).res = .ok b) :
    (∀ v, kvs.lookup "data" = some v →
       (get_devices st now r1 fb (.ok (.obj kvs))).res = .ok v) ∧
    (kvs.lookup "data" = none →
       (get_devices st now r1 fb (.ok (.obj kvs))).res = .ok (.arr [])) ∧
    (get_devices st now r1 fb
        (.ok (.obj [("data", .arr [.obj [("uniqueId", .str "A1"),
          ("instanceName", .str "Bath")]])]))).res =
      .ok (.arr [.obj [("uniqueId", .str "A1"), ("instanceName", .str "Bath")]]) ∧
    (get_devices st now r1 fb (.ok (.obj []))).res = .ok (.arr []) := by
  refine ⟨?_, ?_, ?_, ?_⟩
  · intro v hv
    simp only [get_devices]
    rw [hok]
    dsimp only
    rw [hv]
  · intro hv
    simp only [get_devices]
    rw [hok]
    dsimp only
    rw [hv]
  · simp only [get_devices]
    rw [hok]
    rfl
  · simp only [get_devices]
    rw [hok]
    rfl

/-- Witness for C8: from the never-authenticated state (where the prelude
returns failure) the scenario responses still produce the data list and the
empty list respectively. -/
theorem C8_witness :
    (get_devices {} 0 (.ok .null) (.ok .null)
        (.ok (.obj [("data", .arr [.obj [("uniqueId", .str "A1"),
          ("instanceName", .str "Bath")]])]))).res =
      .ok (.arr [.obj [("uniqueId", .str "A1"), ("instanceName", .str "Bath")]]) ∧
    (get_devices {} 0 (.ok .null) (.ok .null) (.ok (.obj []))).res = .ok (.arr []) :=
  ⟨(C8_get_devices {} 0 (.ok .null) (.ok .null) [] false rfl).2.2.1,
   (C8_get_devices {} 0 (.ok .null) (.ok .null) [] false rfl).2.2.2⟩

/-- C9: whenever the `maybe_refresh_token` prelude returns failure (never
authenticated, or expired token whose refresh failed), `get_devices`,
`get_latest_datapoints`, `get_actions` and `invoke_action` ignore that
failure and still dispatch their HTTP request (appended after the prelude's
requests) rather than returning early. -/
theorem C9_prelude_failure_ignored (st : ClientState) (now : ℚ)
    (r1 fb dResp : HttpOutcome) (uid : String) (aid : Json) (v : String)
    (hfail : (maybe_refresh_token st now r1 fb).res = .ok false) :
    (get_devices st now r1 fb dResp).trace =
      (maybe_refresh_token st now r1 fb).trace ++ [devicesReq] ∧
    (get_latest_datapoints st now r1 fb uid dResp).trace =
      (maybe_refresh_token st now r1 fb).trace ++ [datapointsReq uid] ∧
    (get_actions st now r1 fb uid dResp).trace =
      (maybe_refresh_token st now r1 fb).trace ++ [actionsReq uid] ∧
    (invoke_action st now r1 fb aid uid v dResp).trace =
      (maybe_refresh_token st now r1 fb).trace ++ [invokeReq aid uid v] :=
  ⟨get_devices_trace st now r1 fb dResp false hfail,
   get_latest_datapoints_trace st now r1 fb uid dResp false hfail,
   get_actions_trace st now r1 fb uid dResp false hfail,
   invoke_action_trace st now r1 fb aid uid v dResp false hfail⟩

/-- Witness for C9 in the never-authenticated state: the device listing GET
is still dispatched. -/
theorem C9_witness :
    (get_devices {} 0 (.ok .null) (.ok .null) (.ok (.obj []))).trace =
      (maybe_refresh_token {} 0 (.ok .null) (.ok .null)).trace ++ [devicesReq] ∧
    (get_latest_datapoints {} 0 (.ok .null) (.ok .null) "d" (.ok (.obj []))).trace =
      (maybe_refresh_token {} 0 (.ok .null) (.ok .null)).trace ++ [datapointsReq "d"] ∧
    (get_actions {} 0 (.ok .null) (.ok .null) "d" (.ok (.obj []))).trace =
      (maybe_refresh_token {} 0 (.ok .null) (.ok .null)).trace ++ [actionsReq "d"] ∧
    (invoke_action {} 0 (.ok .null) (.ok .null) (.str "a") "d" "1" (.ok (.obj []))).trace =
      (maybe_refresh_token {} 0 (.ok .null) (.ok .null)).trace ++ [invokeReq (.str "a") "d" "1"] :=
  C9_prelude_failure_ignored {} 0 (.ok .null) (.ok .null) (.ok (.obj [])) "d"
    (.str "a") "1" rfl

/-- The client state used to refute C10: access and refresh tokens held. -/
def c10State : ClientState := { access_token := .str "a", refresh_token := .str "r" }

/-- C10 (counterexample): a refresh response that is a mapping without an
`error` field on which `refresh_access_token` does not return success —
`expires_in` is JSON null, so `int(None)` raises an uncaught `TypeError`. -/
theorem C10_counterexample :
    (List.lookup "error" [("expires_in", Json.null)] = none) ∧
    (refresh_access_token c10State 0 (.ok (.obj [("expires_in", Json.null)]))
        (.ok .null)).res = .error .typeError := by
  exact ⟨rfl, rfl⟩

/-- C10 (amended): for every refresh response that is a mapping without an
`error` field and whose `expires_in` (when present) does not make `int(...)`
raise, `refresh_access_token` returns success even when `access_token` or
`refresh_token` is missing, overwriting the stored tokens with the absent
(`None`) values — unlike `authenticate`, which returns failure when either
token field is missing — so a later `maybe_refresh_token` call fails with no
access token held and no network activity. -/
theorem C10_refresh_overwrites (st : ClientState) (now : ℚ) (fb : HttpOutcome)
    (kvs : List (String × Json)) (q : ℚ)
    (ht : pyTruthy st.refresh_token = true)
    (he : kvs.lookup "error" = none)
    (hq : effExpiresIn kvs = some q) :
    (refresh_access_token st now (.ok (.obj kvs)) fb =
      ⟨.ok true,
       { st with access_token := (kvs.lookup "access_token").getD .null,
                 refresh_token := (kvs.lookup "refresh_token").getD .null,
                 token_expires_at := now + q - 30 },
       [refreshReq st.refresh_token]⟩) ∧
    (kvs.lookup "access_token" = none →
      ∀ (now2 : ℚ) (r2 fb2 : HttpOutcome),
        maybe_refresh_token (refresh_access_token st now (.ok (.obj kvs)) fb).state
            now2 r2 fb2 =
          ⟨.ok false, (refresh_access_token st now (.ok (.obj kvs)) fb).state, []⟩) ∧
    ((kvs.lookup "access_token" = none ∨ kvs.lookup "refresh_token" = none) →
      ∀ (st2 : ClientState) (u p : String),
        (authenticate st2 now u p (.ok (.obj kvs))).res = .ok false) := by
  have hmain : refresh_access_token st now (.ok (.obj kvs)) fb =
      ⟨.ok true,
       { st with access_token := (kvs.lookup "access_token").getD .null,
                 refresh_token := (kvs.lookup "refresh_token").getD .null,
                 token_expires_at := now + q - 30 },
       [refreshReq st.refresh_token]⟩ := by
    unfold refresh_access_token
    simp only [ht, Bool.not_true, Bool.false_eq_true, if_false, he,
      Option.isSome_none, expiresAt_eq now kvs q hq]
  refine ⟨hmain, ?_, ?_⟩
  · intro hma now2 r2 fb2
    rw [hmain]
    unfold maybe_refresh_token
    dsimp only
    rw [hma]
    rfl
  · intro hmiss st2 u p
    simp only [authenticate, he, Option.isSome_none, Bool.false_eq_true, if_false]
    rcases hmiss with hma | hmr
    · rw [hma]
    · rw [hmr]
      cases kvs.lookup "access_token" <;> rfl

/-- Witness for C10 at a concrete tokenless refresh response. -/
theorem C10_witness :
    (refresh_access_token c10State 0 (.ok (.obj [])) (.ok .null) =
      ⟨.ok true,
       { c10State with access_token := (List.lookup "access_token" [] : Option Json).getD .null,
                       refresh_token := (List.lookup "refresh_token" [] : Option Json).getD .null,
                       token_expires_at := 0 + 3600 - 30 },
       [refreshReq c10State.refresh_token]⟩) ∧
    maybe_refresh_token (refresh_access_token c10State 0 (.ok (.obj [])) (.ok .null)).state
        7 (.ok .null) (.ok .null) =
      ⟨.ok false, (refresh_access_token c10State 0 (.ok (.obj [])) (.ok .null)).state, []⟩ :=
  ⟨(C10_refresh_overwrites c10State 0 (.ok .null) [] 3600 rfl rfl (by decide)).1,
   (C10_refresh_overwrites c10State 0 (.ok .null) [] 3600 rfl rfl (by decide)).2.1 rfl
     7 (.ok .null) (.ok .null)⟩

end Condair
